import Mathlib

/-!
Verification of the STM32 VS Code extension (TypeScript sources) against its
natural-language specification.  JavaScript strings are embedded as `List Char`
(one entry per UTF-16 unit; all inputs of interest are scalar values), and each
TypeScript function under scrutiny is translated into an executable Lean
definition over that representation.  Filesystem access, child processes and
the VS Code API are represented by explicit oracles/parameters where a function
consults them.
-/

namespace STM32

/-- JavaScript string, embedded as a list of characters. -/
abbrev JSStr := List Char

/-- Coerce a Lean string literal to the embedded JavaScript string type. -/
def jstr (x : String) : JSStr := x.data

/-- JS `String.prototype.toLowerCase` (ASCII-accurate, per-unit). -/
def jsToLower (s : JSStr) : JSStr := s.map Char.toLower

/-- JS `String.prototype.startsWith(prefix)`. -/
def jsStartsWith (p s : JSStr) : Bool := List.isPrefixOf p s

/-- JS `String.prototype.includes(sub)`: substring containment. -/
def jsIncludes (sub : JSStr) : JSStr → Bool
  | [] => List.isEmpty sub
  | c :: cs => List.isPrefixOf sub (c :: cs) || jsIncludes sub cs

/-- JS `String.prototype.trim`: strip leading/trailing whitespace. -/
def jsTrim (x : JSStr) : JSStr :=
  ((x.dropWhile Char.isWhitespace).reverse.dropWhile Char.isWhitespace).reverse

/-- First `some` produced by `f` over a list, in order (models a `for` loop
with early `return`). -/
def firstSome (f : α → Option β) : List α → Option β
  | [] => none
  | a :: as =>
    match f a with
    | some b => some b
    | none => firstSome f as

namespace ChipUtils

/-- `getOpenOCDTarget` from `src/utils/chipUtils.ts` lines 11-32: chip name to
OpenOCD target configuration name. -/
def getOpenOCDTarget (chipName : JSStr) : JSStr :=
  let chip := jsToLower chipName
  if jsStartsWith (jstr ("stm32f0")) chip then jstr ("stm32f0x") else
  if jsStartsWith (jstr ("stm32f1")) chip then jstr ("stm32f1x") else
  if jsStartsWith (jstr ("stm32f2")) chip then jstr ("stm32f2x") else
  if jsStartsWith (jstr ("stm32f3")) chip then jstr ("stm32f3x") else
  if jsStartsWith (jstr ("stm32f4")) chip then jstr ("stm32f4x") else
  if jsStartsWith (jstr ("stm32f7")) chip then jstr ("stm32f7x") else
  if jsStartsWith (jstr ("stm32g0")) chip then jstr ("stm32g0x") else
  if jsStartsWith (jstr ("stm32g4")) chip then jstr ("stm32g4x") else
  if jsStartsWith (jstr ("stm32h7")) chip then jstr ("stm32h7x") else
  if jsStartsWith (jstr ("stm32l0")) chip then jstr ("stm32l0") else
  if jsStartsWith (jstr ("stm32l1")) chip then jstr ("stm32l1") else
  if jsStartsWith (jstr ("stm32l4")) chip then jstr ("stm32l4x") else
  if jsStartsWith (jstr ("stm32l5")) chip then jstr ("stm32l5x") else
  if jsStartsWith (jstr ("stm32u5")) chip then jstr ("stm32u5x") else
  if jsStartsWith (jstr ("stm32wb")) chip then jstr ("stm32wbx") else
  if jsStartsWith (jstr ("stm32wl")) chip then jstr ("stm32wlx") else
  jstr ("stm32f1x")

/-- `quotePath` from `src/utils/chipUtils.ts` lines 117-125. -/
def quotePath (p : JSStr) : JSStr :=
  if jsIncludes (jstr ("\"")) p then p
  else if jsIncludes (jstr (" ")) p && !jsStartsWith (jstr ("\"")) p
          && !jsStartsWith (jstr ("\x27")) p then
    '"' :: (p ++ [ '"' ])
  else p

end ChipUtils

namespace OpenOCDMgr

/-- `OpenOCDManager.getOpenOCDTarget` from `src/utils/openocdManager.ts`
lines 28-51; in the source the chip name is read from the `stm32.selectedChip`
configuration, exposed here as the argument. -/
def getOpenOCDTarget (selectedChip : JSStr) : JSStr :=
  let chipName := jsToLower selectedChip
  if jsStartsWith (jstr ("stm32f0")) chipName then jstr ("stm32f0x") else
  if jsStartsWith (jstr ("stm32f1")) chipName then jstr ("stm32f1x") else
  if jsStartsWith (jstr ("stm32f2")) chipName then jstr ("stm32f2x") else
  if jsStartsWith (jstr ("stm32f3")) chipName then jstr ("stm32f3x") else
  if jsStartsWith (jstr ("stm32f4")) chipName then jstr ("stm32f4x") else
  if jsStartsWith (jstr ("stm32f7")) chipName then jstr ("stm32f7x") else
  if jsStartsWith (jstr ("stm32g0")) chipName then jstr ("stm32g0x") else
  if jsStartsWith (jstr ("stm32g4")) chipName then jstr ("stm32g4x") else
  if jsStartsWith (jstr ("stm32h7")) chipName then jstr ("stm32h7x") else
  if jsStartsWith (jstr ("stm32l0")) chipName then jstr ("stm32l0") else
  if jsStartsWith (jstr ("stm32l1")) chipName then jstr ("stm32l1") else
  if jsStartsWith (jstr ("stm32l4")) chipName then jstr ("stm32l4x") else
  if jsStartsWith (jstr ("stm32l5")) chipName then jstr ("stm32l5x") else
  if jsStartsWith (jstr ("stm32u5")) chipName then jstr ("stm32u5x") else
  if jsStartsWith (jstr ("stm32wb")) chipName then jstr ("stm32wbx") else
  if jsStartsWith (jstr ("stm32wl")) chipName then jstr ("stm32wlx") else
  jstr ("stm32f1x")

/-- `OpenOCDManager.quotePath` from `src/utils/openocdManager.ts` lines 75-80
(note: unlike the `chipUtils.ts` version, no check for an embedded `"`). -/
def quotePath (p : JSStr) : JSStr :=
  if jsIncludes (jstr (" ")) p && !jsStartsWith (jstr ("\"")) p
      && !jsStartsWith (jstr ("\x27")) p then
    '"' :: (p ++ [ '"' ])
  else p

end OpenOCDMgr

namespace DebugGen

/-- `DebugConfigGenerator.getOpenOCDTarget` from
`src/utils/debugConfigGenerator.ts` lines 137-155.  Unlike the other two
copies, the chain stops after the `stm32wb` case: there is no `stm32wl` case
before the default. -/
def getOpenOCDTarget (chipName : JSStr) : JSStr :=
  let chip := jsToLower chipName
  if jsStartsWith (jstr ("stm32f0")) chip then jstr ("stm32f0x") else
  if jsStartsWith (jstr ("stm32f1")) chip then jstr ("stm32f1x") else
  if jsStartsWith (jstr ("stm32f2")) chip then jstr ("stm32f2x") else
  if jsStartsWith (jstr ("stm32f3")) chip then jstr ("stm32f3x") else
  if jsStartsWith (jstr ("stm32f4")) chip then jstr ("stm32f4x") else
  if jsStartsWith (jstr ("stm32f7")) chip then jstr ("stm32f7x") else
  if jsStartsWith (jstr ("stm32g0")) chip then jstr ("stm32g0x") else
  if jsStartsWith (jstr ("stm32g4")) chip then jstr ("stm32g4x") else
  if jsStartsWith (jstr ("stm32h7")) chip then jstr ("stm32h7x") else
  if jsStartsWith (jstr ("stm32l0")) chip then jstr ("stm32l0") else
  if jsStartsWith (jstr ("stm32l1")) chip then jstr ("stm32l1") else
  if jsStartsWith (jstr ("stm32l4")) chip then jstr ("stm32l4x") else
  if jsStartsWith (jstr ("stm32l5")) chip then jstr ("stm32l5x") else
  if jsStartsWith (jstr ("stm32u5")) chip then jstr ("stm32u5x") else
  if jsStartsWith (jstr ("stm32wb")) chip then jstr ("stm32wbx") else
  jstr ("stm32f1x")

end DebugGen

end STM32

namespace STM32

/-- A quote-wrapped string contains a double quote. -/
theorem jsIncludes_quote_wrap (l : JSStr) :
    jsIncludes (jstr ("\"")) ('"' :: l) = true := by
  simp [jsIncludes, List.isPrefixOf]

/-- A quote-wrapped string starts with a double quote. -/
theorem jsStartsWith_quote_wrap (l : JSStr) :
    jsStartsWith (jstr ("\"")) ('"' :: l) = true := by
  simp [jsStartsWith, List.isPrefixOf]

/-- Two prefixes of the same string with equal lengths are equal. -/
theorem jsStartsWith_conflict {p q s : JSStr} (hp : jsStartsWith p s = true)
    (hq : jsStartsWith q s = true) (hlen : p.length = q.length) : p = q := by
  rw [jsStartsWith, List.isPrefixOf_iff_prefix] at hp hq
  exact (List.prefix_of_prefix_length_le hp hq (le_of_eq hlen)).eq_of_length
    hlen

end STM32

namespace STM32

/-- C2 counterexample: on the chip name STM32WL55JC, the chipUtils and
OpenOCDManager copies of getOpenOCDTarget return stm32wlx while the
DebugConfigGenerator copy (which lacks the stm32wl case) returns stm32f1x,
so the three functions do not agree on every input. -/
theorem claim2_counterexample :
    ChipUtils.getOpenOCDTarget (jstr ("STM32WL55JC")) = jstr ("stm32wlx") ∧
    OpenOCDMgr.getOpenOCDTarget (jstr ("STM32WL55JC")) = jstr ("stm32wlx") ∧
    DebugGen.getOpenOCDTarget (jstr ("STM32WL55JC")) = jstr ("stm32f1x") ∧
    ¬ (DebugGen.getOpenOCDTarget (jstr ("STM32WL55JC")) =
        ChipUtils.getOpenOCDTarget (jstr ("STM32WL55JC"))) := by
  refine ⟨rfl, rfl, rfl, ?_⟩
  decide

/-- C2 amended: chipUtils.getOpenOCDTarget and OpenOCDManager.getOpenOCDTarget
compute the same function on every input; DebugConfigGenerator.getOpenOCDTarget
agrees with them on every input whose lowercase form does not start with
stm32wl, and on stm32wl-prefixed inputs it returns stm32f1x while the other
two return stm32wlx. -/
theorem claim2_amended (s : JSStr) :
    ChipUtils.getOpenOCDTarget s = OpenOCDMgr.getOpenOCDTarget s ∧
    (jsStartsWith (jstr ("stm32wl")) (jsToLower s) = false →
      DebugGen.getOpenOCDTarget s = ChipUtils.getOpenOCDTarget s) ∧
    (jsStartsWith (jstr ("stm32wl")) (jsToLower s) = true →
      DebugGen.getOpenOCDTarget s = jstr ("stm32f1x") ∧
      ChipUtils.getOpenOCDTarget s = jstr ("stm32wlx")) := by
  refine ⟨rfl, ?_, ?_⟩
  · intro h
    simp only [DebugGen.getOpenOCDTarget, ChipUtils.getOpenOCDTarget, h,
      Bool.false_eq_true, if_false]
  · intro h
    have hp : jstr ("stm32wl") <+: jsToLower s := by
      have h2 := h
      rwa [jsStartsWith, List.isPrefixOf_iff_prefix] at h2
    obtain ⟨t, ht⟩ := hp
    constructor
    · simp only [DebugGen.getOpenOCDTarget]
      rw [← ht]
      simp [jsStartsWith, jstr, List.isPrefixOf_cons₂]
    · simp only [ChipUtils.getOpenOCDTarget]
      rw [← ht]
      simp [jsStartsWith, jstr, List.isPrefixOf_cons₂]

/-- C2 amended witness at concrete inputs: STM32F103C8 is not stm32wl-prefixed
and all three functions give stm32f1x there; STM32WL55JC is stm32wl-prefixed. -/
theorem claim2_amended_witness :
    DebugGen.getOpenOCDTarget (jstr ("STM32F103C8")) =
      ChipUtils.getOpenOCDTarget (jstr ("STM32F103C8")) ∧
    DebugGen.getOpenOCDTarget (jstr ("STM32WL55JC")) = jstr ("stm32f1x") := by
  refine ⟨(claim2_amended (jstr ("STM32F103C8"))).2.1 (by decide),
    ((claim2_amended (jstr ("STM32WL55JC"))).2.2 (by decide)).1⟩

/-- C10: both quotePath implementations are idempotent, the result is either
the input or the input wrapped in double quotes, and an input without spaces
is returned unchanged. -/
theorem claim10_quotePath (p : JSStr) :
    ChipUtils.quotePath (ChipUtils.quotePath p) = ChipUtils.quotePath p ∧
    OpenOCDMgr.quotePath (OpenOCDMgr.quotePath p) = OpenOCDMgr.quotePath p ∧
    (ChipUtils.quotePath p = p ∨
      ChipUtils.quotePath p = '"' :: (p ++ [ '"' ])) ∧
    (OpenOCDMgr.quotePath p = p ∨
      OpenOCDMgr.quotePath p = '"' :: (p ++ [ '"' ])) ∧
    (jsIncludes (jstr (" ")) p = false →
      ChipUtils.quotePath p = p ∧ OpenOCDMgr.quotePath p = p) := by
  refine ⟨?_, ?_, ?_, ?_, ?_⟩
  · by_cases h1 : jsIncludes (jstr ("\"")) p = true
    · simp [ChipUtils.quotePath, h1]
    · by_cases h2 : jsIncludes (jstr (" ")) p = true
        ∧ ¬ jsStartsWith (jstr ("\"")) p = true
        ∧ ¬ jsStartsWith (jstr ("\x27")) p = true
      · have e : ChipUtils.quotePath p = '"' :: (p ++ [ '"' ]) := by
          simp [ChipUtils.quotePath, h1, h2.1, h2.2.1, h2.2.2]
        rw [e]
        simp [ChipUtils.quotePath, jsIncludes_quote_wrap]
      · have e : ChipUtils.quotePath p = p := by
          simp only [ChipUtils.quotePath]
          rw [if_neg h1]
          rw [if_neg]
          simp only [Bool.and_eq_true, Bool.not_eq_true', ← Bool.not_eq_true]
          tauto
        rw [e, e]
  · by_cases h2 : jsIncludes (jstr (" ")) p = true
      ∧ ¬ jsStartsWith (jstr ("\"")) p = true
      ∧ ¬ jsStartsWith (jstr ("\x27")) p = true
    · have e : OpenOCDMgr.quotePath p = '"' :: (p ++ [ '"' ]) := by
        simp [OpenOCDMgr.quotePath, h2.1, h2.2.1, h2.2.2]
      rw [e]
      simp [OpenOCDMgr.quotePath, jsStartsWith_quote_wrap]
    · have e : OpenOCDMgr.quotePath p = p := by
        simp only [OpenOCDMgr.quotePath]
        rw [if_neg]
        simp only [Bool.and_eq_true, Bool.not_eq_true', ← Bool.not_eq_true]
        tauto
      rw [e, e]
  · simp only [ChipUtils.quotePath]
    split_ifs <;> simp
  · simp only [OpenOCDMgr.quotePath]
    split_ifs <;> simp
  · intro h
    constructor
    · simp [ChipUtils.quotePath, h]
    · simp [OpenOCDMgr.quotePath, h]

end STM32

namespace STM32

/-- C10 witness at the concrete space-free path abc: both quotePath
implementations leave it unchanged. -/
theorem claim10_quotePath_witness :
    ChipUtils.quotePath (jstr ("abc")) = jstr ("abc") ∧
    OpenOCDMgr.quotePath (jstr ("abc")) = jstr ("abc") := by
  exact (claim10_quotePath (jstr ("abc"))).2.2.2.2 (by decide)

end STM32

namespace STM32

/-- `s.replace(/\\/g, '/')`: convert Windows backslashes to forward slashes. -/
def jsReplaceBackslash (s : JSStr) : JSStr :=
  s.map (fun c => if c = '\\' then '/' else c)

/-- Index of the last `.` in a string, if any. -/
def lastDotIdx : JSStr → Option Nat
  | [] => none
  | c :: cs =>
    match lastDotIdx cs with
    | some i => some (i + 1)
    | none => if c = '.' then some 0 else none

/-- The basename of a POSIX path: the part after the last `/`. -/
def posixBasename (s : JSStr) : JSStr :=
  (s.reverse.takeWhile (fun c => c ≠ '/')).reverse

/-- Node's `path.extname` (POSIX rules): the suffix of the basename from its
last dot, empty when there is no dot, when the only dot is the leading
character, or for the special name `..`. -/
def extname (p : JSStr) : JSStr :=
  let b := posixBasename p
  match lastDotIdx b with
  | none => []
  | some 0 => []
  | some i =>
    if i = 1 && b.length = 2 && b.headD ' ' = '.' then [] else b.drop i

/-- Substring containment as a Bool (used to state "the message contains the
exit code"). -/
def hasSub (sub : JSStr) : JSStr → Bool
  | [] => List.isEmpty sub
  | c :: cs => List.isPrefixOf sub (c :: cs) || hasSub sub cs

/-- `List.isPrefixOf` is reflexive. -/
theorem isPrefixOf_self (l : JSStr) : List.isPrefixOf l l = true := by
  induction l with
  | nil => simp
  | cons c cs ih => simp [List.isPrefixOf_cons₂, ih]

/-- A string contains any of its suffixes. -/
theorem hasSub_append (pre sub : JSStr) : hasSub sub (pre ++ sub) = true := by
  induction pre with
  | nil =>
    cases sub with
    | nil => simp [hasSub]
    | cons c cs => simp [hasSub, isPrefixOf_self]
  | cons c cs ih => simp [hasSub, ih]

/-- JS `String(n)` for an integer. -/
def jsIntToString (n : Int) : JSStr :=
  if n < 0 then '-' :: Nat.toDigits 10 n.natAbs else Nat.toDigits 10 n.natAbs

/-- JS string interpolation of a `number | null` exit code. -/
def jsCodeToString : Option Int → JSStr
  | none => jstr ("null")
  | some n => jsIntToString n

end STM32

namespace STM32.OpenOCDMgr

/-- `OpenOCDManager.getFlashAddress` from `src/utils/openocdManager.ts`
lines 468-488; the chip name comes from the `stm32.selectedChip`
configuration. -/
def getFlashAddress (selectedChip : JSStr) : JSStr :=
  let chipName := jsToLower selectedChip
  if jsStartsWith (jstr ("stm32h7")) chipName then jstr ("0x08000000") else
  if jsStartsWith (jstr ("stm32wb")) chipName then jstr ("0x08000000") else
  if jsStartsWith (jstr ("stm32l0")) chipName
      || jsStartsWith (jstr ("stm32l1")) chipName then jstr ("0x08000000") else
  jstr ("0x08000000")

/-- The `-c` "program ..." argument built by `OpenOCDManager.flash`
(`src/utils/openocdManager.ts` lines 209-224): backslashes in the file path
are converted to slashes; a `.bin` file (extension compared lowercased) gets
the flash start address appended, `.hex` and anything else do not. -/
def flashProgramArg (flashFile selectedChip : JSStr) : JSStr :=
  let flashFilePath := jsReplaceBackslash flashFile
  let ext := jsToLower (extname flashFile)
  if ext = jstr (".bin") then
    jstr ("program \"") ++ flashFilePath ++ jstr ("\" verify reset exit ")
      ++ getFlashAddress selectedChip
  else if ext = jstr (".hex") then
    jstr ("program \"") ++ flashFilePath ++ jstr ("\" verify reset exit")
  else
    jstr ("program \"") ++ flashFilePath ++ jstr ("\" verify reset exit")

/-- Terminal event of a spawned child process: `close` with an exit code
(`null` when killed by a signal) or an `error` event carrying a message. -/
inductive ProcEvent where
  | close (code : Option Int)
  | error (err : JSStr)

/-- Settlement of the promise returned by `OpenOCDManager.flash`
(`src/utils/openocdManager.ts` lines 242-253): exit code 0 resolves, any
other close rejects with a message interpolating the code, an error event
rejects with that error. -/
def flashOutcome : ProcEvent → Except JSStr Unit
  | .close c =>
    if c = some 0 then .ok ()
    else .error (jstr ("程序下载失败，退出码: ") ++ jsCodeToString c)
  | .error e => .error e

/-- `OpenOCDManager.start` lines 82-86 and 111: a non-null process handle
returns immediately with no spawn; a null handle spawns and stores the new
process.  The Bool records whether a process was spawned. -/
def startStep (proc : Option Nat) (newPid : Nat) : Option Nat × Bool :=
  match proc with
  | some h => (some h, false)
  | none => (some newPid, true)

/-- The `close` handler (lines 138-144) always nulls the stored handle. -/
def closeStep (_ : Option Nat) : Option Nat := none

/-- The `error` handler (lines 146-150) always nulls the stored handle. -/
def errorStep (_ : Option Nat) : Option Nat := none

/-- `OpenOCDManager.stop` (lines 161-167): kills and nulls when a handle is
stored, otherwise does nothing. -/
def stopStep : Option Nat → Option Nat
  | some _ => none
  | none => none

/-- `OpenOCDManager.isRunning` (lines 169-171). -/
def isRunning (proc : Option Nat) : Bool := proc.isSome

/-- Manager state for the asynchronous event model: the tracked nullable
handle (storing the pid of the process it refers to), the pids of currently
live OpenOCD child processes, and the pids of dead processes whose `close`
event has not yet been dispatched by the event loop.  `ChildProcess.kill()`
only sends a signal: the process dies asynchronously and its `close` event
runs on a later tick, possibly after further `start()` calls. -/
structure AsyncState where
  proc : Option Nat
  live : List Nat
  pending : List Nat

/-- The manager's entry points and the event-loop callbacks that touch the
handle. -/
inductive AsyncEvent where
  | start (pid : Nat)
  | stop
  | procExit (pid : Nat)
  | closeEvt (pid : Nat)

/-- One step of the asynchronous model.  `start pid`
(`src/utils/openocdManager.ts` lines 82-86, 111): returns unchanged when a
handle is stored, otherwise spawns a live process and stores it.  `stop`
(lines 161-167): kills the tracked process (it leaves the live set and its
`close` event is queued) and nulls the handle.  `procExit pid`: a live
process exits on its own, queueing its `close` event.  `closeEvt pid`:
dispatches a queued `close` event; its handler (lines 138-144) sets
`this.openocdProcess = null` unconditionally — also when the handle
meanwhile tracks a different, still-live process. -/
def asyncStep (s : AsyncState) : AsyncEvent → AsyncState
  | .start pid =>
    match s.proc with
    | some _ => s
    | none => ⟨some pid, s.live ++ [pid], s.pending⟩
  | .stop =>
    match s.proc with
    | some h => ⟨none, s.live.erase h, s.pending ++ [h]⟩
    | none => s
  | .procExit pid =>
    if s.live.contains pid then
      ⟨s.proc, s.live.erase pid, s.pending ++ [pid]⟩
    else s
  | .closeEvt pid =>
    if s.pending.contains pid then ⟨none, s.live, s.pending.erase pid⟩
    else s

/-- Run a sequence of events from the initial state (no handle, no live
process, no pending event). -/
def asyncRun (events : List AsyncEvent) : AsyncState :=
  events.foldl asyncStep ⟨none, [], []⟩

end STM32.OpenOCDMgr

namespace STM32

/-- C4 counterexample: the manager does not maintain at most one live
OpenOCD child process.  Because kill() only signals the process (its close
event runs asynchronously) and the close handler nulls the handle
unconditionally, the event sequence start 1; stop; start 2; stale close of
1; start 3 leaves processes 2 and 3 both live: the stale close of the
killed process 1 clears the handle that was tracking the live process 2,
so the third start() spawns a second live process. -/
theorem claim4_counterexample :
    (OpenOCDMgr.asyncRun
      [.start 1, .stop, .start 2, .closeEvt 1, .start 3]).live = [2, 3] ∧
    (OpenOCDMgr.asyncRun
      [.start 1, .stop, .start 2, .closeEvt 1, .start 3]).live.length = 2 := by
  exact ⟨rfl, rfl⟩

/-- C4 amended: start() while a handle is non-null returns immediately
without spawning (in the per-handler model and in the asynchronous model);
the close handler, the error handler and stop() all reset the handle to
null, so after stop() returns, isRunning() is false.  But the single
nullable handle does not bound the live processes: kill() is asynchronous
and the close handler nulls the handle unconditionally, so after stop(),
start(), the stale close of the killed process and another start(), two
spawned OpenOCD processes are live at once. -/
theorem claim4_amended :
    (∀ h pid : Nat, OpenOCDMgr.startStep (some h) pid = (some h, false)) ∧
    (∀ s, OpenOCDMgr.closeStep s = none) ∧
    (∀ s, OpenOCDMgr.errorStep s = none) ∧
    (∀ s, OpenOCDMgr.isRunning (OpenOCDMgr.stopStep s) = false) ∧
    (∀ (s : OpenOCDMgr.AsyncState) (h pid : Nat), s.proc = some h →
      OpenOCDMgr.asyncStep s (.start pid) = s) ∧
    (OpenOCDMgr.asyncRun
      [.start 1, .stop, .start 2, .closeEvt 1, .start 3]).live.length = 2 := by
  refine ⟨fun h pid => rfl, fun s => rfl, fun s => rfl, ?_, ?_, rfl⟩
  · intro s
    cases s <;> rfl
  · intro s h pid hp
    simp [OpenOCDMgr.asyncStep, hp]

/-- C4 amended witness: on a state whose handle tracks process 5, start with
pid 9 changes nothing in the asynchronous model. -/
theorem claim4_amended_witness :
    OpenOCDMgr.asyncStep ⟨some 5, [5], []⟩ (.start 9) = ⟨some 5, [5], []⟩ := by
  exact claim4_amended.2.2.2.2.1 ⟨some 5, [5], []⟩ 5 9 rfl

/-- C5: the flash subprocess promise resolves exactly on exit code 0; a
nonzero exit code rejects with a message containing that exit code; an error
event rejects with that error. -/
theorem claim5_flash_outcome :
    (∀ e, OpenOCDMgr.flashOutcome e = .ok () ↔
      e = .close (some 0)) ∧
    (∀ n : Int, n ≠ 0 → ∃ m, OpenOCDMgr.flashOutcome (.close (some n)) =
      .error m ∧ hasSub (jsIntToString n) m = true) ∧
    (∀ err, OpenOCDMgr.flashOutcome (.error err) = .error err) := by
  refine ⟨?_, ?_, fun err => rfl⟩
  · intro e
    cases e with
    | close c =>
      by_cases hc : c = some 0
      · simp [OpenOCDMgr.flashOutcome, hc]
      · simp [OpenOCDMgr.flashOutcome, hc]
    | error err => simp [OpenOCDMgr.flashOutcome]
  · intro n hn
    refine ⟨jstr ("程序下载失败，退出码: ") ++ jsIntToString n, ?_, ?_⟩
    · simp [OpenOCDMgr.flashOutcome, hn, jsCodeToString]
    · exact hasSub_append _ _

/-- C5 witness: exit code 2 rejects with a message containing 2. -/
theorem claim5_flash_outcome_witness :
    ∃ m, OpenOCDMgr.flashOutcome (.close (some 2)) = .error m ∧
      hasSub (jsIntToString 2) m = true := by
  exact claim5_flash_outcome.2.1 2 (by decide)

/-- getFlashAddress returns 0x08000000 on every chip name: all branches of
its if chain return the same literal. -/
theorem getFlashAddress_const (chip : JSStr) :
    OpenOCDMgr.getFlashAddress chip = jstr ("0x08000000") := by
  simp only [OpenOCDMgr.getFlashAddress]
  split_ifs <;> rfl

/-- C6: when the flash file's lowercased extension is .bin the program
command ends with the flash start address and getFlashAddress is 0x08000000
for every chip; for .hex or any other extension the command is exactly the
base program command with no address argument. -/
theorem claim6_flash_command (flashFile selectedChip : JSStr) :
    OpenOCDMgr.getFlashAddress selectedChip = jstr ("0x08000000") ∧
    (jsToLower (extname flashFile) = jstr (".bin") →
      OpenOCDMgr.flashProgramArg flashFile selectedChip =
        jstr ("program \"") ++ jsReplaceBackslash flashFile
          ++ jstr ("\" verify reset exit ") ++ jstr ("0x08000000")) ∧
    (jsToLower (extname flashFile) ≠ jstr (".bin") →
      OpenOCDMgr.flashProgramArg flashFile selectedChip =
        jstr ("program \"") ++ jsReplaceBackslash flashFile
          ++ jstr ("\" verify reset exit")) := by
  refine ⟨getFlashAddress_const selectedChip, ?_, ?_⟩
  · intro h
    simp [OpenOCDMgr.flashProgramArg, h, getFlashAddress_const]
  · intro h
    simp only [OpenOCDMgr.flashProgramArg]
    rw [if_neg h]
    by_cases h2 : jsToLower (extname flashFile) = jstr (".hex")
    · rw [if_pos h2]
    · rw [if_neg h2]

/-- C6 witness at concrete files firmware.bin and firmware.elf. -/
theorem claim6_flash_command_witness :
    OpenOCDMgr.flashProgramArg (jstr ("firmware.bin")) (jstr ("STM32F4")) =
      jstr ("program \"") ++ jsReplaceBackslash (jstr ("firmware.bin"))
        ++ jstr ("\" verify reset exit ") ++ jstr ("0x08000000") ∧
    OpenOCDMgr.flashProgramArg (jstr ("firmware.elf")) (jstr ("STM32F4")) =
      jstr ("program \"") ++ jsReplaceBackslash (jstr ("firmware.elf"))
        ++ jstr ("\" verify reset exit") := by
  constructor
  · exact (claim6_flash_command (jstr ("firmware.bin")) (jstr ("STM32F4"))).2.1
      (by decide)
  · exact (claim6_flash_command (jstr ("firmware.elf")) (jstr ("STM32F4"))).2.2
      (by decide)

end STM32

namespace STM32.ProjDetect

/-- `DetectedProjectInfo` from the project detector (`src/unnamed/part_004`
lines 5-9): every field optional. -/
structure DetectedProjectInfo where
  chipName : Option JSStr
  chipFamily : Option JSStr
  projectName : Option JSStr
deriving DecidableEq

/-- JS truthiness of `info.chipName` (absent or empty string is falsy). -/
def chipNameTruthy (i : DetectedProjectInfo) : Bool :=
  match i.chipName with
  | none => false
  | some s => !s.isEmpty

/-- `ProjectDetector.detectChip` from `src/unnamed/part_004` lines 16-47:
consults the `.ioc` detector, then the CMakeLists detector, then the startup
file detector, then the linker script detector, returning at the first
truthy `chipName`.  The four sub-detector results (each depending on the
workspace filesystem) are the inputs. -/
def detectChip (ioc cmake startup linker : DetectedProjectInfo) :
    DetectedProjectInfo :=
  if chipNameTruthy ioc then ioc
  else if chipNameTruthy cmake then cmake
  else if chipNameTruthy startup then startup
  else linker

end STM32.ProjDetect

namespace STM32

/-- C7: detectChip returns the ioc result whenever it has a chip name,
regardless of the later sources; otherwise the CMakeLists result whenever it
has a chip name, regardless of later sources; then the startup-file result;
and the linker result only when all earlier sources yielded none. -/
theorem claim7_detect_order
    (ioc cmake startup linker : ProjDetect.DetectedProjectInfo) :
    (ProjDetect.chipNameTruthy ioc = true →
      ProjDetect.detectChip ioc cmake startup linker = ioc) ∧
    (ProjDetect.chipNameTruthy ioc = false →
      ProjDetect.chipNameTruthy cmake = true →
      ProjDetect.detectChip ioc cmake startup linker = cmake) ∧
    (ProjDetect.chipNameTruthy ioc = false →
      ProjDetect.chipNameTruthy cmake = false →
      ProjDetect.chipNameTruthy startup = true →
      ProjDetect.detectChip ioc cmake startup linker = startup) ∧
    (ProjDetect.chipNameTruthy ioc = false →
      ProjDetect.chipNameTruthy cmake = false →
      ProjDetect.chipNameTruthy startup = false →
      ProjDetect.detectChip ioc cmake startup linker = linker) := by
  refine ⟨?_, ?_, ?_, ?_⟩ <;> intros <;> simp_all [ProjDetect.detectChip]

/-- C7 witness: with an ioc hit STM32F103C8 and a cmake hit STM32F407VG the
ioc result wins; with only a linker hit the linker result is returned. -/
theorem claim7_detect_order_witness :
    ProjDetect.detectChip ⟨some (jstr ("STM32F103C8")), none, none⟩
        ⟨some (jstr ("STM32F407VG")), none, none⟩ ⟨none, none, none⟩
        ⟨none, none, none⟩ =
      ⟨some (jstr ("STM32F103C8")), none, none⟩ ∧
    ProjDetect.detectChip ⟨none, none, none⟩ ⟨none, none, none⟩
        ⟨none, none, none⟩ ⟨some (jstr ("STM32WB55")), none, none⟩ =
      ⟨some (jstr ("STM32WB55")), none, none⟩ := by
  constructor
  · exact (claim7_detect_order _ _ _ _).1 (by decide)
  · exact (claim7_detect_order _ _ _ _).2.2.2 (by decide) (by decide)
      (by decide)

end STM32

namespace STM32

/-- A place in the extension's code that passes a duration to `setTimeout` or
to the `timeout` option of `exec`/`execSync`.  `limitsChild` is true when the
duration is a kill-timeout imposed on a child process (the `timeout` option),
false when it is a mere scheduling delay (`setTimeout`). -/
structure TimeoutSite where
  component : String
  ms : Nat
  limitsChild : Bool
deriving DecidableEq

/-- All duration-bearing call sites in the repository (catalogued from the
sources; one entry per call site):
`openocdManager.ts:153` (the 3-second optimistic-resolve wait in `start`),
the `execSync` probes of `ToolchainDetector` (`src/unnamed/part_002` lines
359, 370, 441, 454, 474, 487, all `timeout: 5000`), the `exec` probes of
`SerialMonitor` (`src/unnamed/part_006` lines 65, 91, 106, 123, 146, 319,
332), the `setTimeout` build-type sync delays of `selectBuildType`
(`src/unnamed/part_004` line 258 / `part_005` line 230, delays 500, 1500,
3000), and the `setTimeout` terminal-dispose delays of `SerialMonitor`
(`src/unnamed/part_006` lines 345 and 391). -/
def timeoutSites : List TimeoutSite := [
  ⟨"OpenOCDManager.start", 3000, false⟩,
  ⟨"ToolchainDetector.findInPath.where", 5000, true⟩,
  ⟨"ToolchainDetector.findInPath.which", 5000, true⟩,
  ⟨"ToolchainDetector.getGccVersion", 5000, true⟩,
  ⟨"ToolchainDetector.getOpenOCDVersion", 5000, true⟩,
  ⟨"ToolchainDetector.getCMakeVersion", 5000, true⟩,
  ⟨"ToolchainDetector.getNinjaVersion", 5000, true⟩,
  ⟨"SerialMonitor.listPorts.mode", 500, true⟩,
  ⟨"SerialMonitor.listPortsQuick.getPortNames", 5000, true⟩,
  ⟨"SerialMonitor.listPortsQuick.registry", 5000, true⟩,
  ⟨"SerialMonitor.listPortsQuick.lsDevTty", 2000, true⟩,
  ⟨"SerialMonitor.getPortDescriptions.wmi", 5000, true⟩,
  ⟨"SerialMonitor.checkPythonSerial", 3000, true⟩,
  ⟨"SerialMonitor.checkCommand", 2000, true⟩,
  ⟨"selectBuildType.syncDelayA", 500, false⟩,
  ⟨"selectBuildType.syncDelayB", 1500, false⟩,
  ⟨"selectBuildType.syncDelayC", 3000, false⟩,
  ⟨"SerialMonitor.disconnect.dispose", 500, false⟩,
  ⟨"SerialMonitor.send.dispose", 2000, false⟩]

/-- C3 counterexample: `ToolchainDetector.getGccVersion` imposes a 5000 ms
kill-timeout on its `execSync` child process, so the 3-second OpenOCD launch
wait is not the only time limit on a child process in the extension. -/
theorem claim3_counterexample :
    (⟨"ToolchainDetector.getGccVersion", 5000, true⟩ : TimeoutSite)
        ∈ timeoutSites ∧
    (⟨"ToolchainDetector.getGccVersion", 5000, true⟩ :
        TimeoutSite).limitsChild = true ∧
    ¬ ("ToolchainDetector.getGccVersion" = "OpenOCDManager.start" ∧
        (5000 : Nat) = 3000) := by
  refine ⟨by decide, rfl, ?_⟩
  intro h
  exact absurd h.2 (by decide)

/-- C3 amended: the 3-second optimistic wait when launching OpenOCD exists
(and it does not kill the child), but in addition every `exec`/`execSync`
probe in the toolchain detector and the serial monitor imposes a 500-5000 ms
kill-timeout on its child process; those probes are the only child-process
time limits. -/
theorem claim3_amended :
    (⟨"OpenOCDManager.start", 3000, false⟩ : TimeoutSite) ∈ timeoutSites ∧
    (∀ s ∈ timeoutSites, s.limitsChild = true →
      (s.ms = 500 ∨ s.ms = 2000 ∨ s.ms = 3000 ∨ s.ms = 5000) ∧
      s.component ∈ ["ToolchainDetector.findInPath.where",
        "ToolchainDetector.findInPath.which",
        "ToolchainDetector.getGccVersion",
        "ToolchainDetector.getOpenOCDVersion",
        "ToolchainDetector.getCMakeVersion",
        "ToolchainDetector.getNinjaVersion",
        "SerialMonitor.listPorts.mode",
        "SerialMonitor.listPortsQuick.getPortNames",
        "SerialMonitor.listPortsQuick.registry",
        "SerialMonitor.listPortsQuick.lsDevTty",
        "SerialMonitor.getPortDescriptions.wmi",
        "SerialMonitor.checkPythonSerial",
        "SerialMonitor.checkCommand"]) := by
  constructor
  · decide
  · decide

/-- C3 amended witness: the getGccVersion probe is in the catalogue, limits
its child, and its limit is 5000 ms. -/
theorem claim3_amended_witness :
    ((⟨"ToolchainDetector.getGccVersion", 5000, true⟩ : TimeoutSite).ms = 500
      ∨ (⟨"ToolchainDetector.getGccVersion", 5000, true⟩ : TimeoutSite).ms
          = 2000
      ∨ (⟨"ToolchainDetector.getGccVersion", 5000, true⟩ : TimeoutSite).ms
          = 3000
      ∨ (⟨"ToolchainDetector.getGccVersion", 5000, true⟩ : TimeoutSite).ms
          = 5000) := by
  exact (claim3_amended.2 ⟨"ToolchainDetector.getGccVersion", 5000, true⟩
    (by decide) rfl).1

end STM32

namespace STM32

/-- Index of the last occurrence of a character, if any. -/
def lastIdxOf (c : Char) : JSStr → Option Nat
  | [] => none
  | d :: ds =>
    match lastIdxOf c ds with
    | some i => some (i + 1)
    | none => if d = c then some 0 else none

/-- Node `path.dirname` (POSIX rules, for the path shapes used here). -/
def posixDirname (s : JSStr) : JSStr :=
  match lastIdxOf '/' s with
  | none => jstr (".")
  | some 0 => jstr ("/")
  | some i => s.take i

/-- Node `path.join sep a b` for the two-argument joins used here (no
segment normalization is needed for these shapes); `sep` is the platform
separator. -/
def pathJoinSep (sep : Char) (a b : JSStr) : JSStr :=
  if a.isEmpty then b
  else if a.getLast? = some sep then a ++ b
  else a ++ sep :: b

end STM32

namespace STM32.DebugGen

/-- The settings object returned by `DebugConfigGenerator.getConfig`
(`src/utils/debugConfigGenerator.ts` lines 124-135), after the `||` defaults
were applied. -/
structure Settings where
  selectedChip : JSStr
  debugInterface : JSStr
  buildDirectory : JSStr
  buildType : JSStr
  toolchainPath : JSStr
  openocdPath : JSStr
  svdFile : JSStr

/-- `DebugConfigGenerator.getInterfaceConfig` from
`src/utils/debugConfigGenerator.ts` lines 157-173 (the `stlink` and
`stlink-v2` cases share a branch). -/
def getInterfaceConfig (debugInterface : JSStr) : JSStr :=
  if debugInterface = jstr ("stlink") || debugInterface = jstr ("stlink-v2")
    then jstr ("interface/stlink-v2.cfg")
  else if debugInterface = jstr ("stlink-v2-1")
    then jstr ("interface/stlink-v2-1.cfg")
  else if debugInterface = jstr ("stlink-v3") then jstr ("interface/stlink.cfg")
  else if debugInterface = jstr ("jlink") then jstr ("interface/jlink.cfg")
  else if debugInterface = jstr ("cmsis-dap")
    then jstr ("interface/cmsis-dap.cfg")
  else jstr ("interface/stlink.cfg")

/-- The `vscode.DebugConfiguration` object built by
`createDebugConfigAsync`; optional fields model properties that are set only
conditionally (or set to `undefined`). -/
structure DebugConfiguration where
  type : JSStr
  request : JSStr
  name : JSStr
  servertype : JSStr
  cwd : JSStr
  executable : JSStr
  device : Option JSStr
  configFiles : List JSStr
  gdbPath : JSStr
  runToEntryPoint : JSStr
  showDevDebugOutput : JSStr
  armToolchainPath : Option JSStr
  liveWatchEnabled : Bool
  liveWatchSamplesPerSecond : Nat
  overrideLaunchCommands : List JSStr
  overrideRestartCommands : List JSStr
  serverpath : Option JSStr
  searchDir : Option (List JSStr)
  svdFile : Option JSStr

/-- `DebugConfigGenerator.createDebugConfigAsync` from
`src/utils/debugConfigGenerator.ts` lines 202-282.  `isWin32` models
`process.platform === 'win32'`; `openocdScriptsPath` is the result of the
filesystem-probing `getOpenOCDScriptsPath` and `foundSvd` the result of the
workspace search `findSvdFile` (both filesystem oracles).  The `..`-segment
normalization of `path.resolve` in the xpack fallback is applied verbatim to
the joined path (no claim depends on that field). -/
def createDebugConfigAsync (settings : Settings) (elfFile : JSStr)
    (isWin32 : Bool) (openocdScriptsPath : Option JSStr)
    (foundSvd : Option JSStr) : DebugConfiguration :=
  let target := getOpenOCDTarget settings.selectedChip
  let interfaceConfig := getInterfaceConfig settings.debugInterface
  let sep : Char := if isWin32 then '\\' else '/'
  let ext := if isWin32 then jstr (".exe") else []
  let gdbPath :=
    if settings.toolchainPath.isEmpty then jstr ("arm-none-eabi-gdb") ++ ext
    else pathJoinSep sep settings.toolchainPath
      (jstr ("arm-none-eabi-gdb") ++ ext)
  let svdChoice :=
    if settings.svdFile.isEmpty then foundSvd else some settings.svdFile
  let elfPathForOpenOCD := jsReplaceBackslash elfFile
  let chipDisp :=
    if settings.selectedChip.isEmpty then jstr ("OpenOCD")
    else settings.selectedChip
  { type := jstr ("cortex-debug")
    request := jstr ("launch")
    name := jstr ("STM32 Debug (") ++ chipDisp ++ jstr (")")
    servertype := jstr ("openocd")
    cwd := jstr ("$\x7bworkspaceFolder\x7d")
    executable := elfFile
    device :=
      if settings.selectedChip.isEmpty then none
      else some settings.selectedChip
    configFiles :=
      [interfaceConfig, jstr ("target/") ++ target ++ jstr (".cfg")]
    gdbPath := gdbPath
    runToEntryPoint := jstr ("main")
    showDevDebugOutput := jstr ("parsed")
    armToolchainPath :=
      if settings.toolchainPath.isEmpty then none
      else some settings.toolchainPath
    liveWatchEnabled := true
    liveWatchSamplesPerSecond := 4
    overrideLaunchCommands :=
      [jstr ("monitor reset init"),
       jstr ("monitor flash write_image erase \"") ++ elfPathForOpenOCD
         ++ jstr ("\""),
       jstr ("monitor reset halt"),
       jstr ("monitor arm semihosting enable")]
    overrideRestartCommands := [jstr ("monitor reset halt")]
    serverpath :=
      if settings.openocdPath.isEmpty then none
      else some settings.openocdPath
    searchDir :=
      match openocdScriptsPath with
      | some p => some [p]
      | none =>
        let openocdDir := posixDirname settings.openocdPath
        if openocdDir.isEmpty then none
        else some [pathJoinSep sep
          (pathJoinSep sep
            (pathJoinSep sep (pathJoinSep sep openocdDir (jstr ("..")))
              (jstr ("share"))) (jstr ("openocd"))) (jstr ("scripts"))]
    svdFile :=
      match svdChoice with
      | some s => if s.isEmpty then none else some s
      | none => none }

end STM32.DebugGen

namespace STM32

/-- C9: every generated debug configuration has type cortex-debug, request
launch, servertype openocd; its executable is the ELF file found; its
configFiles are exactly the interface config for the configured debug
interface followed by target/(target).cfg for the configured chip; its
gdbPath is the toolchain path joined with arm-none-eabi-gdb (plus .exe on
Windows) or the bare tool name when no toolchain path is configured; and
svdFile is present exactly when the configured svdFile setting is nonempty
or a nonempty SVD file was discovered. -/
theorem claim9_debug_config (settings : DebugGen.Settings) (elfFile : JSStr)
    (isWin32 : Bool) (scripts : Option JSStr) (foundSvd : Option JSStr) :
    (DebugGen.createDebugConfigAsync settings elfFile isWin32 scripts
        foundSvd).type = jstr ("cortex-debug") ∧
    (DebugGen.createDebugConfigAsync settings elfFile isWin32 scripts
        foundSvd).request = jstr ("launch") ∧
    (DebugGen.createDebugConfigAsync settings elfFile isWin32 scripts
        foundSvd).servertype = jstr ("openocd") ∧
    (DebugGen.createDebugConfigAsync settings elfFile isWin32 scripts
        foundSvd).executable = elfFile ∧
    (DebugGen.createDebugConfigAsync settings elfFile isWin32 scripts
        foundSvd).configFiles =
      [DebugGen.getInterfaceConfig settings.debugInterface,
       jstr ("target/") ++ DebugGen.getOpenOCDTarget settings.selectedChip
         ++ jstr (".cfg")] ∧
    (DebugGen.createDebugConfigAsync settings elfFile isWin32 scripts
        foundSvd).gdbPath =
      (if settings.toolchainPath.isEmpty then
        jstr ("arm-none-eabi-gdb")
          ++ (if isWin32 then jstr (".exe") else [])
      else
        pathJoinSep (if isWin32 then '\\' else '/') settings.toolchainPath
          (jstr ("arm-none-eabi-gdb")
            ++ (if isWin32 then jstr (".exe") else []))) ∧
    ((DebugGen.createDebugConfigAsync settings elfFile isWin32 scripts
        foundSvd).svdFile ≠ none ↔
      (settings.svdFile.isEmpty = false ∨
        (∃ s, foundSvd = some s ∧ s.isEmpty = false))) := by
  refine ⟨rfl, rfl, rfl, rfl, rfl, rfl, ?_⟩
  by_cases hcfg : settings.svdFile.isEmpty
  · cases foundSvd with
    | none => simp [DebugGen.createDebugConfigAsync, hcfg]
    | some s =>
      by_cases hs : s.isEmpty
      · simp [DebugGen.createDebugConfigAsync, hcfg, hs]
        exact List.isEmpty_iff.mp hs
      · simp [DebugGen.createDebugConfigAsync, hcfg, hs]
        exact fun he => hs (by simp [he])
  · simp [DebugGen.createDebugConfigAsync, hcfg]

end STM32

namespace STM32

/-- JS `String.prototype.split(sep)` for a one-character separator. -/
def jsSplitChar (sep : Char) : JSStr → List JSStr
  | [] => [[]]
  | c :: cs =>
    let r := jsSplitChar sep cs
    if c = sep then [] :: r
    else
      match r with
      | h :: t => (c :: h) :: t
      | [] => [[c]]

/-- Case-insensitive substring test (a `/sub/i.test(s)` regex alternative
branch). -/
def regexTestCI (sub s : JSStr) : Bool :=
  hasSub (jsToLower sub) (jsToLower s)

/-- Greedy match of `\d+\.\d+\.\d+` anchored at the start of `s` (JS regex
semantics: each `\d+` is a maximal digit run because it is followed by a
literal that is not a digit). -/
def matchVerAt (s : JSStr) : Option JSStr :=
  let d1 := s.takeWhile Char.isDigit
  if d1.isEmpty then none
  else
    match s.drop d1.length with
    | '.' :: r2 =>
      let d2 := r2.takeWhile Char.isDigit
      if d2.isEmpty then none
      else
        match r2.drop d2.length with
        | '.' :: r3 =>
          let d3 := r3.takeWhile Char.isDigit
          if d3.isEmpty then none
          else some (d1 ++ '.' :: (d2 ++ '.' :: d3))
        | _ => none
    | _ => none

/-- `s.match(/(\d+\.\d+\.\d+)/)`: the leftmost match of the version regex
(scan start positions left to right). -/
def firstVerMatch : JSStr → Option JSStr
  | [] => none
  | c :: cs =>
    match matchVerAt (c :: cs) with
    | some v => some v
    | none => firstVerMatch cs

/-- Node `path.resolve` on a single absolute POSIX path: split on `/`,
drop empty and `.` segments, let `..` pop the previous segment. -/
def resolvePosix (p : JSStr) : JSStr :=
  let segs := jsSplitChar '/' p
  let stack := segs.foldl
    (fun st seg =>
      if seg = jstr ("..") then st.dropLast
      else if seg.isEmpty || seg = jstr (".") then st
      else st ++ [seg])
    ([] : List JSStr)
  '/' :: List.intercalate (jstr ("/")) stack

end STM32

namespace STM32.Toolchain

/-- A directory entry as returned by `fs.readdirSync(dir, withFileTypes)`. -/
structure Dirent where
  name : JSStr
  isDir : Bool

/-- Filesystem oracle: `ex` models `fs.existsSync`, `rd` models
`fs.readdirSync` (returning `[]` where the source catches an exception). -/
structure Fs where
  ex : JSStr → Bool
  rd : JSStr → List Dirent

/-- `ToolchainDetector.findInPath` from `src/unnamed/part_002` lines 344-381
(POSIX branch: `:`-separated PATH, `which` fallback): each PATH entry is
probed in order for the joined executable path; only if none exists is the
`which` output (an oracle: `none` models a thrown `execSync`) consulted,
trimmed and existence-checked. -/
def findInPath (fs : Fs) (pathEnv : JSStr) (whichOut : Option JSStr)
    (name : JSStr) : Option JSStr :=
  let paths := jsSplitChar ':' pathEnv
  match firstSome
      (fun p =>
        let fullPath := pathJoinSep '/' p name
        if fs.ex fullPath then some fullPath else none) paths with
  | some r => some r
  | none =>
    match whichOut with
    | some res =>
      let firstLine := jsTrim res
      if !firstLine.isEmpty && fs.ex firstLine then some firstLine else none
    | none => none

/-- Recursion core of `ToolchainDetector.findDirectories`
(`src/unnamed/part_002` lines 386-413); `fuel = maxDepth - depth + 1`, so
fuel 0 is the `depth > maxDepth` cutoff and recursion into a subdirectory is
allowed only while `depth < maxDepth`. -/
def findDirsGo (fs : Fs) (pattern : JSStr → Bool) : Nat → JSStr → List JSStr
  | 0, _ => []
  | Nat.succ f, dir =>
    (fs.rd dir).flatMap
      (fun e =>
        if e.isDir then
          (if pattern e.name then [pathJoinSep '/' dir e.name] else [])
            ++ findDirsGo fs pattern f (pathJoinSep '/' dir e.name)
        else [])

/-- `ToolchainDetector.findDirectories` with its default `maxDepth = 3`. -/
def findDirectories (fs : Fs) (basePath : JSStr) (pattern : JSStr → Bool)
    (maxDepth : Nat) : List JSStr :=
  findDirsGo fs pattern (maxDepth + 1) basePath

/-- The `/arm-none-eabi|gcc-arm/i` directory-name pattern. -/
def gccDirPattern (name : JSStr) : Bool :=
  regexTestCI (jstr ("arm-none-eabi")) name
    || regexTestCI (jstr ("gcc-arm")) name

/-- The `/openocd|xpack/i` directory-name pattern. -/
def openocdDirPattern (name : JSStr) : Bool :=
  regexTestCI (jstr ("openocd")) name || regexTestCI (jstr ("xpack")) name

/-- `ToolchainDetector.getCommonGccPaths`, POSIX branch
(`src/unnamed/part_002` lines 262-271). -/
def getCommonGccPaths (home : JSStr) : List JSStr :=
  [jstr ("/usr/local"), jstr ("/opt"), jstr ("/usr"),
   pathJoinSep '/' home (jstr (".local")),
   pathJoinSep '/'
     (pathJoinSep '/'
       (pathJoinSep '/' (pathJoinSep '/' home (jstr (".local")))
         (jstr ("xPacks"))) (jstr ("@xpack-dev-tools")))
     (jstr ("arm-none-eabi-gcc")),
   jstr ("/Applications/ARM")]

/-- `ToolchainDetector.getCommonOpenOCDPaths`, POSIX branch (lines 299-307). -/
def getCommonOpenOCDPaths (home : JSStr) : List JSStr :=
  [jstr ("/usr/local"), jstr ("/opt"), jstr ("/usr"),
   pathJoinSep '/' home (jstr (".local")),
   pathJoinSep '/'
     (pathJoinSep '/'
       (pathJoinSep '/' (pathJoinSep '/' home (jstr (".local")))
         (jstr ("xPacks"))) (jstr ("@xpack-dev-tools"))) (jstr ("openocd")),
   jstr ("/Applications")]

/-- `ToolchainDetector.getCommonNinjaPaths`, POSIX branch (lines 329-335). -/
def getCommonNinjaPaths (home : JSStr) : List JSStr :=
  [jstr ("/usr/bin"), jstr ("/usr/local/bin"), jstr ("/opt/homebrew/bin"),
   pathJoinSep '/' (pathJoinSep '/' home (jstr (".local"))) (jstr ("bin"))]

/-- `ToolchainDetector.getGccVersion` (lines 439-447): `probe` models
`execSync('"path" --version')` stdout, `none` a throw. -/
def getGccVersion (probe : JSStr → Option JSStr) (gccPath : JSStr) : JSStr :=
  match probe gccPath with
  | some result =>
    match firstVerMatch result with
    | some v => v
    | none => jstr ("unknown")
  | none => jstr ("unknown")

/-- `ToolchainDetector.getOpenOCDVersion` (lines 452-467): on a thrown
`execSync` (OpenOCD prints its version to stderr) the error's stderr, when
present, is searched with the same regex. -/
def getOpenOCDVersion (probe stderrOut : JSStr → Option JSStr)
    (openocdPath : JSStr) : JSStr :=
  match probe openocdPath with
  | some result =>
    match firstVerMatch result with
    | some v => v
    | none => jstr ("unknown")
  | none =>
    match stderrOut openocdPath with
    | some st =>
      match firstVerMatch st with
      | some v => v
      | none => jstr ("unknown")
    | none => jstr ("unknown")

/-- `ToolchainDetector.getCMakeVersion` (lines 472-480). -/
def getCMakeVersion (probe : JSStr → Option JSStr) (cmakePath : JSStr) :
    JSStr :=
  match probe cmakePath with
  | some result =>
    match firstVerMatch result with
    | some v => v
    | none => jstr ("unknown")
  | none => jstr ("unknown")

/-- `ToolchainDetector.getNinjaVersion` (lines 485-492): the trimmed output
(no version regex!), `'unknown'` only when empty or thrown. -/
def getNinjaVersion (probe : JSStr → Option JSStr) (ninjaPath : JSStr) :
    JSStr :=
  match probe ninjaPath with
  | some result =>
    let t := jsTrim result
    if t.isEmpty then jstr ("unknown") else t
  | none => jstr ("unknown")

/-- `ToolchainDetector.findOpenOCDScripts` (lines 418-434): probe four
candidate script directories, resolved, returning the first existing one or
the empty string. -/
def findOpenOCDScripts (fs : Fs) (basePath : JSStr) : JSStr :=
  let possiblePaths :=
    [pathJoinSep '/'
       (pathJoinSep '/' (pathJoinSep '/' basePath (jstr ("share")))
         (jstr ("openocd"))) (jstr ("scripts")),
     pathJoinSep '/'
       (pathJoinSep '/'
         (pathJoinSep '/' (pathJoinSep '/' basePath (jstr ("..")))
           (jstr ("share"))) (jstr ("openocd"))) (jstr ("scripts")),
     pathJoinSep '/' basePath (jstr ("scripts")),
     pathJoinSep '/' (pathJoinSep '/' basePath (jstr ("..")))
       (jstr ("scripts"))]
  match firstSome
      (fun p =>
        let resolved := resolvePosix p
        if fs.ex resolved then some resolved else none) possiblePaths with
  | some r => r
  | none => []

/-- `ToolchainDetector.detectGccArm` (lines 81-119): the two candidate names
are looked up on PATH first (returning the hit's directory and probed
version); only if both miss are the common install locations walked with
`findDirectories`, probing `<dir>/bin/arm-none-eabi-gcc(.exe)`. -/
def detectGccArm (fs : Fs) (pathEnv : JSStr)
    (whichOut : JSStr → Option JSStr) (probe : JSStr → Option JSStr)
    (home : JSStr) : Option (JSStr × JSStr) :=
  let gccNames := [jstr ("arm-none-eabi-gcc"), jstr ("arm-none-eabi-gcc.exe")]
  match firstSome
      (fun n =>
        (findInPath fs pathEnv (whichOut n) n).map
          (fun r => (posixDirname r, getGccVersion probe r))) gccNames with
  | some res => some res
  | none =>
    firstSome
      (fun basePath =>
        if fs.ex basePath then
          firstSome
            (fun dir =>
              let binPath := pathJoinSep '/' dir (jstr ("bin"))
              let gccExe :=
                pathJoinSep '/' binPath (jstr ("arm-none-eabi-gcc.exe"))
              let gccUnix :=
                pathJoinSep '/' binPath (jstr ("arm-none-eabi-gcc"))
              if fs.ex gccExe then some (binPath, getGccVersion probe gccExe)
              else if fs.ex gccUnix then
                some (binPath, getGccVersion probe gccUnix)
              else none)
            (findDirectories fs basePath gccDirPattern 3)
        else none)
      (getCommonGccPaths home)

/-- `ToolchainDetector.detectOpenOCD` (lines 124-166): PATH lookup first
(returning the hit itself, its scripts directory and version); then the
common locations. -/
def detectOpenOCD (fs : Fs) (pathEnv : JSStr)
    (whichOut : JSStr → Option JSStr) (probe stderrOut : JSStr → Option JSStr)
    (home : JSStr) : Option (JSStr × JSStr × JSStr) :=
  let openocdNames := [jstr ("openocd"), jstr ("openocd.exe")]
  match firstSome
      (fun n =>
        (findInPath fs pathEnv (whichOut n) n).map
          (fun r =>
            (r, findOpenOCDScripts fs (posixDirname r),
              getOpenOCDVersion probe stderrOut r))) openocdNames with
  | some res => some res
  | none =>
    firstSome
      (fun basePath =>
        if fs.ex basePath then
          firstSome
            (fun dir =>
              let binPath := pathJoinSep '/' dir (jstr ("bin"))
              let openocdExe :=
                pathJoinSep '/' binPath (jstr ("openocd.exe"))
              let openocdUnix := pathJoinSep '/' binPath (jstr ("openocd"))
              let exePath :=
                if fs.ex openocdExe then some openocdExe
                else if fs.ex openocdUnix then some openocdUnix else none
              match exePath with
              | some e =>
                some (e, findOpenOCDScripts fs dir,
                  getOpenOCDVersion probe stderrOut e)
              | none => none)
            (findDirectories fs basePath openocdDirPattern 3)
        else none)
      (getCommonOpenOCDPaths home)

/-- `ToolchainDetector.detectCMake` (lines 171-200): PATH lookup first, then
five literal common paths. -/
def detectCMake (fs : Fs) (pathEnv : JSStr)
    (whichOut : JSStr → Option JSStr) (probe : JSStr → Option JSStr) :
    Option (JSStr × JSStr) :=
  let cmakeNames := [jstr ("cmake"), jstr ("cmake.exe")]
  match firstSome
      (fun n =>
        (findInPath fs pathEnv (whichOut n) n).map
          (fun r => (r, getCMakeVersion probe r))) cmakeNames with
  | some res => some res
  | none =>
    firstSome
      (fun p =>
        if fs.ex p then some (p, getCMakeVersion probe p) else none)
      [jstr ("C:\\Program Files\\CMake\\bin\\cmake.exe"),
       jstr ("C:\\Program Files (x86)\\CMake\\bin\\cmake.exe"),
       jstr ("/usr/bin/cmake"), jstr ("/usr/local/bin/cmake"),
       jstr ("/opt/homebrew/bin/cmake")]

/-- `ToolchainDetector.detectNinja` (lines 205-237): PATH lookup first, then
the common ninja directories. -/
def detectNinja (fs : Fs) (pathEnv : JSStr)
    (whichOut : JSStr → Option JSStr) (probe : JSStr → Option JSStr)
    (home : JSStr) : Option (JSStr × JSStr) :=
  let ninjaNames := [jstr ("ninja"), jstr ("ninja.exe")]
  match firstSome
      (fun n =>
        (findInPath fs pathEnv (whichOut n) n).map
          (fun r => (r, getNinjaVersion probe r))) ninjaNames with
  | some res => some res
  | none =>
    firstSome
      (fun basePath =>
        if fs.ex basePath then
          let ninjaExe := pathJoinSep '/' basePath (jstr ("ninja.exe"))
          let ninjaUnix := pathJoinSep '/' basePath (jstr ("ninja"))
          if fs.ex ninjaExe then some (ninjaExe, getNinjaVersion probe ninjaExe)
          else if fs.ex ninjaUnix then
            some (ninjaUnix, getNinjaVersion probe ninjaUnix)
          else none
        else none)
      (getCommonNinjaPaths home)

end STM32.Toolchain

namespace STM32

/-- C8 counterexample: getNinjaVersion applies no version regex: on probe
output "just some banner" (which contains no digits-dot-digits-dot-digits
match) it reports the trimmed output rather than 'unknown'. -/
theorem claim8_counterexample :
    Toolchain.getNinjaVersion (fun _ => some (jstr ("just some banner")))
        (jstr ("/usr/bin/ninja")) = jstr ("just some banner") ∧
    firstVerMatch (jstr ("just some banner")) = none ∧
    jstr ("just some banner") ≠ jstr ("unknown") := by
  refine ⟨by decide, by decide, by decide⟩

/-- C8 amended: each detector (gcc-arm, openocd, cmake, ninja) consults PATH
first and a PATH hit is returned without probing the common install
locations; a hit in a PATH entry is returned without consulting the
where/which fallback; gcc and cmake (and openocd on probe success) report
the first digits-dot-digits-dot-digits match of the --version output or
'unknown' on no match or probe failure; openocd on probe failure searches
the error's stderr with the same regex before falling back to 'unknown';
ninja reports its trimmed --version output with no regex applied ('unknown'
only when the probe fails or the output is blank). -/
theorem claim8_amended :
    (∀ (fs : Toolchain.Fs) env which probe home r,
      Toolchain.findInPath fs env (which (jstr ("arm-none-eabi-gcc")))
          (jstr ("arm-none-eabi-gcc")) = some r →
      Toolchain.detectGccArm fs env which probe home =
        some (posixDirname r, Toolchain.getGccVersion probe r)) ∧
    (∀ (fs : Toolchain.Fs) env which probe stderrOut home r,
      Toolchain.findInPath fs env (which (jstr ("openocd")))
          (jstr ("openocd")) = some r →
      Toolchain.detectOpenOCD fs env which probe stderrOut home =
        some (r, Toolchain.findOpenOCDScripts fs (posixDirname r),
          Toolchain.getOpenOCDVersion probe stderrOut r)) ∧
    (∀ (fs : Toolchain.Fs) env which probe r,
      Toolchain.findInPath fs env (which (jstr ("cmake")))
          (jstr ("cmake")) = some r →
      Toolchain.detectCMake fs env which probe =
        some (r, Toolchain.getCMakeVersion probe r)) ∧
    (∀ (fs : Toolchain.Fs) env which probe home r,
      Toolchain.findInPath fs env (which (jstr ("ninja")))
          (jstr ("ninja")) = some r →
      Toolchain.detectNinja fs env which probe home =
        some (r, Toolchain.getNinjaVersion probe r)) ∧
    (∀ (fs : Toolchain.Fs) env whichOut name r,
      firstSome
          (fun p =>
            let fullPath := pathJoinSep '/' p name
            if fs.ex fullPath then some fullPath else none)
          (jsSplitChar ':' env) = some r →
      Toolchain.findInPath fs env whichOut name = some r) ∧
    (∀ (probe : JSStr → Option JSStr) p out, probe p = some out →
      Toolchain.getGccVersion probe p =
          (firstVerMatch out).getD (jstr ("unknown")) ∧
        Toolchain.getCMakeVersion probe p =
          (firstVerMatch out).getD (jstr ("unknown"))) ∧
    (∀ (probe stderrOut : JSStr → Option JSStr) p out, probe p = some out →
      Toolchain.getOpenOCDVersion probe stderrOut p =
        (firstVerMatch out).getD (jstr ("unknown"))) ∧
    (∀ (probe : JSStr → Option JSStr) p, probe p = none →
      Toolchain.getGccVersion probe p = jstr ("unknown") ∧
        Toolchain.getCMakeVersion probe p = jstr ("unknown")) ∧
    (∀ (probe stderrOut : JSStr → Option JSStr) p st, probe p = none →
      stderrOut p = some st →
      Toolchain.getOpenOCDVersion probe stderrOut p =
        (firstVerMatch st).getD (jstr ("unknown"))) ∧
    (∀ (probe : JSStr → Option JSStr) p out, probe p = some out →
      Toolchain.getNinjaVersion probe p =
        (if (jsTrim out).isEmpty then jstr ("unknown") else jsTrim out)) := by
  refine ⟨?_, ?_, ?_, ?_, ?_, ?_, ?_, ?_, ?_, ?_⟩
  · intro fs env which probe home r h
    simp [Toolchain.detectGccArm, firstSome, h]
  · intro fs env which probe stderrOut home r h
    simp [Toolchain.detectOpenOCD, firstSome, h]
  · intro fs env which probe r h
    simp [Toolchain.detectCMake, firstSome, h]
  · intro fs env which probe home r h
    simp [Toolchain.detectNinja, firstSome, h]
  · intro fs env whichOut name r h
    simp [Toolchain.findInPath, h]
  · intro probe p out h
    constructor <;>
      · simp only [Toolchain.getGccVersion, Toolchain.getCMakeVersion, h]
        cases hv : firstVerMatch out <;> simp [hv]
  · intro probe stderrOut p out h
    simp only [Toolchain.getOpenOCDVersion, h]
    cases hv : firstVerMatch out <;> simp [hv]
  · intro probe p h
    constructor <;>
      simp [Toolchain.getGccVersion, Toolchain.getCMakeVersion, h]
  · intro probe stderrOut p st h h2
    simp only [Toolchain.getOpenOCDVersion, h, h2]
    cases hv : firstVerMatch st <;> simp [hv]
  · intro probe p out h
    simp [Toolchain.getNinjaVersion, h]

/-- Concrete filesystem for the C8 witness: only
/usr/bin/arm-none-eabi-gcc exists. -/
def claim8Fs : Toolchain.Fs :=
  ⟨fun p => p == jstr ("/usr/bin/arm-none-eabi-gcc"), fun _ => []⟩

/-- C8 amended witness: on a filesystem where the gcc executable exists in
the single PATH entry /usr/bin, detectGccArm returns that hit's directory
and probed version, and getGccVersion extracts 10.3.1 from a sample
banner. -/
theorem claim8_amended_witness :
    Toolchain.detectGccArm claim8Fs (jstr ("/usr/bin")) (fun _ => none)
        (fun _ => some (jstr ("gcc version 10.3.1 20210824")))
        (jstr ("/home/u")) =
      some (posixDirname (jstr ("/usr/bin/arm-none-eabi-gcc")),
        Toolchain.getGccVersion
          (fun _ => some (jstr ("gcc version 10.3.1 20210824")))
          (jstr ("/usr/bin/arm-none-eabi-gcc"))) ∧
    Toolchain.getGccVersion
        (fun _ => some (jstr ("gcc version 10.3.1 20210824")))
        (jstr ("/usr/bin/arm-none-eabi-gcc")) =
      (firstVerMatch (jstr ("gcc version 10.3.1 20210824"))).getD
        (jstr ("unknown")) := by
  constructor
  · exact claim8_amended.1 claim8Fs (jstr ("/usr/bin")) (fun _ => none)
      (fun _ => some (jstr ("gcc version 10.3.1 20210824")))
      (jstr ("/home/u")) (jstr ("/usr/bin/arm-none-eabi-gcc")) (by decide)
  · exact ((claim8_amended.2.2.2.2.2.1
      (fun _ => some (jstr ("gcc version 10.3.1 20210824")))
      (jstr ("/usr/bin/arm-none-eabi-gcc"))
      (jstr ("gcc version 10.3.1 20210824"))) rfl).1

end STM32

namespace STM32.LaunchJson

/-- A parsed JSON value; numbers keep their lexeme (no numeric claim depends
on their value). -/
inductive JVal where
  | null
  | bool (b : Bool)
  | num (lexeme : JSStr)
  | str (s : JSStr)
  | arr (elems : List JVal)
  | obj (fields : List (JSStr × JVal))

/-- JS property read `obj[key]` on an object's field list (`none` models
`undefined`). -/
def lookupField : List (JSStr × JVal) → JSStr → Option JVal
  | [], _ => none
  | (k, v) :: rest, key => if k = key then some v else lookupField rest key

/-- JS property write `obj[key] = v`: replaces in place when the key exists
(keeping its position), appends otherwise. -/
def setField : List (JSStr × JVal) → JSStr → JVal → List (JSStr × JVal)
  | [], key, v => [(key, v)]
  | (k, w) :: rest, key, v =>
    if k = key then (k, v) :: rest else (k, w) :: setField rest key v

/-- JSON whitespace. -/
def jsonWs (c : Char) : Bool := c = ' ' || c = '\t' || c = '\n' || c = '\r'

/-- Skip JSON whitespace. -/
def skipWs : JSStr → JSStr
  | [] => []
  | c :: cs => if jsonWs c then skipWs cs else c :: cs

/-- Hex digit value. -/
def hexVal (c : Char) : Option Nat :=
  if '0' ≤ c ∧ c ≤ '9' then some (c.toNat - 48)
  else if 'a' ≤ c ∧ c ≤ 'f' then some (c.toNat - 87)
  else if 'A' ≤ c ∧ c ≤ 'F' then some (c.toNat - 55)
  else none

/-- Single-character JSON escapes. -/
def escChar (c : Char) : Option Char :=
  if c = '"' then some '"'
  else if c = '\\' then some '\\'
  else if c = '/' then some '/'
  else if c = 'b' then some (Char.ofNat 8)
  else if c = 'f' then some (Char.ofNat 12)
  else if c = 'n' then some '\n'
  else if c = 'r' then some '\r'
  else if c = 't' then some '\t'
  else none

/-- Parse a JSON string body (the opening quote already consumed), returning
the decoded characters and the rest.  Unescaped control characters are
rejected, as in strict JSON. -/
def pStr (fuel : Nat) (s : JSStr) : Option (JSStr × JSStr) :=
  match fuel with
  | 0 => none
  | f + 1 =>
    match s with
    | [] => none
    | c :: cs =>
      if c = '"' then some ([], cs)
      else if c = '\\' then
        match cs with
        | [] => none
        | e :: cs2 =>
          if e = 'u' then
            match cs2 with
            | a :: b :: c3 :: d :: cs3 =>
              match hexVal a, hexVal b, hexVal c3, hexVal d with
              | some va, some vb, some vc, some vd =>
                (pStr f cs3).map
                  (fun q =>
                    (Char.ofNat (va * 4096 + vb * 256 + vc * 16 + vd)
                      :: q.1, q.2))
              | _, _, _, _ => none
            | _ => none
          else
            match escChar e with
            | some ec => (pStr f cs2).map (fun q => (ec :: q.1, q.2))
            | none => none
      else if c.toNat < 32 then none
      else (pStr f cs).map (fun q => (c :: q.1, q.2))

/-- Parse an optional JSON fraction part. -/
def pFrac : JSStr → Option (JSStr × JSStr)
  | '.' :: r =>
    let ds := r.takeWhile Char.isDigit
    if ds.isEmpty then none else some ('.' :: ds, r.drop ds.length)
  | s => some ([], s)

/-- Parse an optional JSON exponent part. -/
def pExp : JSStr → Option (JSStr × JSStr)
  | c :: r =>
    if c = 'e' || c = 'E' then
      let sg : JSStr × JSStr :=
        match r with
        | '+' :: rr => (['+'], rr)
        | '-' :: rr => (['-'], rr)
        | _ => ([], r)
      let ds := sg.2.takeWhile Char.isDigit
      if ds.isEmpty then none
      else some (c :: (sg.1 ++ ds), sg.2.drop ds.length)
    else some ([], c :: r)
  | [] => some ([], [])

/-- Parse a JSON number (strict grammar), returning its lexeme. -/
def pNum (s : JSStr) : Option (JSStr × JSStr) :=
  let ng : JSStr × JSStr :=
    match s with
    | '-' :: r => (['-'], r)
    | _ => ([], s)
  match ng.2 with
  | [] => none
  | c :: cs =>
    if c = '0' then
      match pFrac cs with
      | none => none
      | some (fp, s3) =>
        match pExp s3 with
        | none => none
        | some (ep, s4) => some (ng.1 ++ '0' :: (fp ++ ep), s4)
    else if c.isDigit then
      let ds := ng.2.takeWhile Char.isDigit
      match pFrac (ng.2.dropWhile Char.isDigit) with
      | none => none
      | some (fp, s3) =>
        match pExp s3 with
        | none => none
        | some (ep, s4) => some (ng.1 ++ ds ++ fp ++ ep, s4)
    else none

mutual

/-- Parse a JSON value (strict `JSON.parse` grammar: no comments, no
trailing commas, `true`/`false`/`null` literals, strings, numbers, arrays,
objects). -/
def pVal (fuel : Nat) (s : JSStr) : Option (JVal × JSStr) :=
  match fuel with
  | 0 => none
  | f + 1 =>
    match skipWs s with
    | '{' :: rest =>
      match skipWs rest with
      | '}' :: r2 => some (JVal.obj [], r2)
      | other => pMembers f other []
    | '[' :: rest =>
      match skipWs rest with
      | ']' :: r2 => some (JVal.arr [], r2)
      | other => pElems f other []
    | '"' :: rest =>
      (pStr (rest.length + 1) rest).map (fun q => (JVal.str q.1, q.2))
    | 't' :: 'r' :: 'u' :: 'e' :: rest => some (JVal.bool true, rest)
    | 'f' :: 'a' :: 'l' :: 's' :: 'e' :: rest => some (JVal.bool false, rest)
    | 'n' :: 'u' :: 'l' :: 'l' :: rest => some (JVal.null, rest)
    | other => (pNum other).map (fun q => (JVal.num q.1, q.2))

/-- Parse the members of a JSON object (after `{`, at least one member);
duplicate keys overwrite in place, as in JS. -/
def pMembers (fuel : Nat) (s : JSStr) (acc : List (JSStr × JVal)) :
    Option (JVal × JSStr) :=
  match fuel with
  | 0 => none
  | f + 1 =>
    match skipWs s with
    | '"' :: rest =>
      match pStr (rest.length + 1) rest with
      | none => none
      | some (key, r1) =>
        match skipWs r1 with
        | ':' :: r2 =>
          match pVal f r2 with
          | none => none
          | some (v, r3) =>
            match skipWs r3 with
            | ',' :: r4 => pMembers f r4 (setField acc key v)
            | '}' :: r4 => some (JVal.obj (setField acc key v), r4)
            | _ => none
        | _ => none
    | _ => none

/-- Parse the elements of a JSON array (after `[`, at least one element). -/
def pElems (fuel : Nat) (s : JSStr) (acc : List JVal) :
    Option (JVal × JSStr) :=
  match fuel with
  | 0 => none
  | f + 1 =>
    match pVal f s with
    | none => none
    | some (v, r) =>
      match skipWs r with
      | ',' :: r2 => pElems f r2 (acc ++ [v])
      | ']' :: r2 => some (JVal.arr (acc ++ [v]), r2)
      | _ => none

end

/-- `JSON.parse`: parse a complete JSON document (only whitespace may
follow the value); `none` models a thrown `SyntaxError`. -/
def jsonParse (s : JSStr) : Option JVal :=
  match pVal (2 * s.length + 2) s with
  | some (v, rest) => if (skipWs rest).isEmpty then some v else none
  | none => none

/-- The findIndex callback `c => c.type === 'cortex-debug' && c.servertype
=== 'openocd'` (`src/utils/debugConfigGenerator.ts` lines 473-475); reading
`.type` of a `null` element throws (`Except.error`). -/
def isMatchingConfig : JVal → Except Unit Bool
  | JVal.null => .error ()
  | JVal.obj fs =>
    .ok ((match lookupField fs (jstr ("type")) with
          | some (JVal.str s) => s == jstr ("cortex-debug")
          | _ => false)
      && (match lookupField fs (jstr ("servertype")) with
          | some (JVal.str s) => s == jstr ("openocd")
          | _ => false))
  | _ => .ok false

/-- `configurations.findIndex(...)`: index of the first matching entry. -/
def findIdxMatching (i : Nat) : List JVal → Except Unit (Option Nat)
  | [] => .ok none
  | c :: cs =>
    match isMatchingConfig c with
    | .error e => .error e
    | .ok true => .ok (some i)
    | .ok false => findIdxMatching (i + 1) cs

/-- The merge step of `generateLaunchJson`
(`src/utils/debugConfigGenerator.ts` lines 472-480): replace the first
cortex-debug/openocd configuration in place, else push the new one;
`Except.error` models the TypeError thrown when the parsed value is not an
object with a `configurations` array. -/
def mergeDebugConfig (lj dc : JVal) : Except Unit JVal :=
  match lj with
  | JVal.obj fields =>
    match lookupField fields (jstr ("configurations")) with
    | some (JVal.arr confs) =>
      match findIdxMatching 0 confs with
      | .error e => .error e
      | .ok (some i) =>
        .ok (JVal.obj (setField fields (jstr ("configurations"))
          (JVal.arr (confs.set i dc))))
      | .ok none =>
        .ok (JVal.obj (setField fields (jstr ("configurations"))
          (JVal.arr (confs ++ [dc]))))
    | _ => .error ()
  | _ => .error ()

/-- The fallback document used when parsing the existing launch.json throws
(`src/utils/debugConfigGenerator.ts` line 469). -/
def defaultLaunchJson : JVal :=
  JVal.obj [(jstr ("version"), JVal.str (jstr ("0.2.0"))),
    (jstr ("configurations"), JVal.arr [])]

/-- The document written when no launch.json exists (lines 482-486). -/
def freshLaunchJson (dc : JVal) : JVal :=
  JVal.obj [(jstr ("version"), JVal.str (jstr ("0.2.0"))),
    (jstr ("configurations"), JVal.arr [dc])]

/-- `DebugConfigGenerator.generateLaunchJson` file-content logic
(`src/utils/debugConfigGenerator.ts` lines 461-488): `existing` is the raw
content of `.vscode/launch.json` when the file exists; a parse failure
(including JSON-with-comments) silently falls back to an empty document
before merging. -/
def generateLaunchJson (existing : Option JSStr) (dc : JVal) :
    Except Unit JVal :=
  match existing with
  | none => .ok (freshLaunchJson dc)
  | some content =>
    let lj := (jsonParse content).getD defaultLaunchJson
    mergeDebugConfig lj dc

end STM32.LaunchJson

namespace STM32.LaunchJson

/-- Setting one key leaves every other key's binding unchanged. -/
theorem lookupField_setField_ne (fields : List (JSStr × JVal))
    (key k : JSStr) (v : JVal) (hne : k ≠ key) :
    lookupField (setField fields key v) k = lookupField fields k := by
  induction fields with
  | nil =>
    simp only [setField, lookupField]
    rw [if_neg (fun h => hne h.symm)]
  | cons f rest ih =>
    obtain ⟨fk, fv⟩ := f
    by_cases hk : fk = key
    · subst hk
      simp only [setField, if_pos rfl, lookupField]
      rw [if_neg (fun h => hne h.symm), if_neg (fun h => hne h.symm)]
    · simp only [setField, if_neg hk, lookupField]
      by_cases hfk : fk = k
      · rw [if_pos hfk, if_pos hfk]
      · rw [if_neg hfk, if_neg hfk]
        exact ih

end STM32.LaunchJson

namespace STM32

/-- The JSON-with-comments launch.json used as C1 counterexample input: it
has version 0.1.0 and one non-cortex-debug configuration. -/
def claim1JsoncContent : JSStr :=
  jstr ("// STM32 debug settings\n\x7b\n  \"version\": \"0.1.0\",\n  \"configurations\": [ \x7b \"type\": \"node\", \"request\": \"launch\" \x7d ]\n\x7d")

/-- A representative generated cortex-debug entry for C1. -/
def claim1Dc : LaunchJson.JVal :=
  LaunchJson.JVal.obj
    [(jstr ("type"), LaunchJson.JVal.str (jstr ("cortex-debug"))),
     (jstr ("request"), LaunchJson.JVal.str (jstr ("launch"))),
     (jstr ("servertype"), LaunchJson.JVal.str (jstr ("openocd")))]

/-- C1 counterexample: a launch.json written as JSON-with-comments is
rejected by JSON.parse, so generateLaunchJson silently discards it: the
output has version 0.2.0 (the original 0.1.0 is not preserved) and only the
generated entry (the existing non-cortex-debug node configuration is
dropped), refuting the claim for JSON-with-comments files. -/
theorem claim1_counterexample :
    LaunchJson.jsonParse claim1JsoncContent = none ∧
    LaunchJson.generateLaunchJson (some claim1JsoncContent) claim1Dc =
      .ok (LaunchJson.JVal.obj
        [(jstr ("version"), LaunchJson.JVal.str (jstr ("0.2.0"))),
         (jstr ("configurations"), LaunchJson.JVal.arr [claim1Dc])]) := by
  exact ⟨rfl, rfl⟩

/-- C1 amended: for an existing launch.json whose content parses as strict
JSON (comments are NOT tolerated) into an object carrying a configurations
array on which the matching test does not throw, the merge replaces the
first configuration with type cortex-debug and servertype openocd in place
(or appends the new entry when none matches), leaves every configuration at
a different index unchanged, and preserves every other top-level field
including version.  When the content does not parse (e.g. JSON with
comments) the file is rewritten from scratch with version 0.2.0 and only the
generated entry; when the parse succeeds but yields no configurations
array, the function throws. -/
theorem claim1_amended (content : JSStr)
    (fields : List (JSStr × LaunchJson.JVal)) (confs : List LaunchJson.JVal)
    (dc : LaunchJson.JVal) (r : Option Nat)
    (hp : LaunchJson.jsonParse content = some (LaunchJson.JVal.obj fields))
    (hc : LaunchJson.lookupField fields (jstr ("configurations")) =
      some (LaunchJson.JVal.arr confs))
    (hf : LaunchJson.findIdxMatching 0 confs = .ok r) :
    LaunchJson.generateLaunchJson (some content) dc =
      .ok (LaunchJson.JVal.obj (LaunchJson.setField fields
        (jstr ("configurations"))
        (LaunchJson.JVal.arr
          (match r with
           | some i => confs.set i dc
           | none => confs ++ [dc])))) ∧
    (∀ k, k ≠ jstr ("configurations") →
      LaunchJson.lookupField (LaunchJson.setField fields
        (jstr ("configurations"))
        (LaunchJson.JVal.arr
          (match r with
           | some i => confs.set i dc
           | none => confs ++ [dc]))) k =
        LaunchJson.lookupField fields k) ∧
    (∀ i, r = some i → ∀ j, j ≠ i → (confs.set i dc)[j]? = confs[j]?) ∧
    (r = none → ∀ j, j < confs.length → (confs ++ [dc])[j]? = confs[j]?) := by
  refine ⟨?_, ?_, ?_, ?_⟩
  · cases r with
    | some i =>
      simp [LaunchJson.generateLaunchJson, hp, LaunchJson.mergeDebugConfig,
        hc, hf]
    | none =>
      simp [LaunchJson.generateLaunchJson, hp, LaunchJson.mergeDebugConfig,
        hc, hf]
  · intro k hk
    exact LaunchJson.lookupField_setField_ne fields (jstr ("configurations"))
      k _ hk
  · intro i hi j hj
    exact List.getElem?_set_ne (fun h => hj h.symm)
  · intro hr j hj
    exact List.getElem?_append_left hj

/-- The strict-JSON launch.json used as C1 witness input: version 0.1.0, a
node configuration first and a cortex-debug/openocd configuration second. -/
def claim1WitnessContent : JSStr :=
  jstr ("\x7b\"version\":\"0.1.0\",\"configurations\":[\x7b\"type\":\"node\"\x7d,\x7b\"type\":\"cortex-debug\",\"servertype\":\"openocd\"\x7d]\x7d")

/-- The field list claim1WitnessContent parses to. -/
def claim1WitnessFields : List (JSStr × LaunchJson.JVal) :=
  [(jstr ("version"), LaunchJson.JVal.str (jstr ("0.1.0"))),
   (jstr ("configurations"), LaunchJson.JVal.arr
     [LaunchJson.JVal.obj [(jstr ("type"), LaunchJson.JVal.str
       (jstr ("node")))],
      LaunchJson.JVal.obj
        [(jstr ("type"), LaunchJson.JVal.str (jstr ("cortex-debug"))),
         (jstr ("servertype"), LaunchJson.JVal.str (jstr ("openocd")))]])]

/-- The configurations array inside claim1WitnessFields. -/
def claim1WitnessConfs : List LaunchJson.JVal :=
  [LaunchJson.JVal.obj [(jstr ("type"), LaunchJson.JVal.str (jstr ("node")))],
   LaunchJson.JVal.obj
     [(jstr ("type"), LaunchJson.JVal.str (jstr ("cortex-debug"))),
      (jstr ("servertype"), LaunchJson.JVal.str (jstr ("openocd")))]]

/-- C1 amended witness: on the concrete witness file the matching entry is
at index 1, it is replaced by the generated entry, and the node entry at
index 0 is untouched. -/
theorem claim1_amended_witness :
    LaunchJson.generateLaunchJson (some claim1WitnessContent) claim1Dc =
      .ok (LaunchJson.JVal.obj (LaunchJson.setField claim1WitnessFields
        (jstr ("configurations"))
        (LaunchJson.JVal.arr (claim1WitnessConfs.set 1 claim1Dc)))) ∧
    (claim1WitnessConfs.set 1 claim1Dc)[0]? = claim1WitnessConfs[0]? := by
  constructor
  · exact (claim1_amended claim1WitnessContent claim1WitnessFields
      claim1WitnessConfs claim1Dc (some 1) rfl rfl rfl).1
  · exact (claim1_amended claim1WitnessContent claim1WitnessFields
      claim1WitnessConfs claim1Dc (some 1) rfl rfl rfl).2.2.1 1 rfl 0
      (by decide)

end STM32
